import Mathlib

/-!
Verification of the CHIP-8 interpreter core in `src/src/chip8.rs` (the
draft used by `main.rs`) and, where the claims cite it, the second draft
`src/src/modules/chip8.rs`.

The machine state is embedded shallowly: fixed-size Rust arrays become
functions `Nat → Nat` with the source's bounds checks made explicit
(`arrGet` / `arrSet` return `none` exactly where Rust indexing would
panic), and the checked `u8`/`u16` arithmetic of the source (`+`, `-`,
`+=` on `u8`/`u16`, which abort on overflow under Rust's checked
semantics) becomes `u8add` / `u8sub` / `u16add` returning `none` on
overflow. `wrapping_add`, `&`, `|`, `^`, shifts are total and modelled
directly. `emulate_cycle` returns `Option Chip8`, with `none` standing
for any reachable abort (explicit `panic!`, out-of-bounds index, or
arithmetic overflow).
-/

namespace Chip8V

/-- Rust checked array read: `a[i]` on an array of length `len`
panics (here: `none`) when `i ≥ len`. -/
def arrGet (a : Nat → Nat) (len i : Nat) : Option Nat :=
  if i < len then some (a i) else none

/-- Rust checked array write: `a[i] = v` panics (here: `none`) when
`i ≥ len`; otherwise yields the updated array. -/
def arrSet (a : Nat → Nat) (len i v : Nat) : Option (Nat → Nat) :=
  if i < len then some (fun j => if j = i then v else a j) else none

/-- Rust `u16` checked addition: aborts on overflow past `2^16 - 1`. -/
def u16add (a b : Nat) : Option Nat :=
  if a + b < 65536 then some (a + b) else none

/-- Rust `u8` checked addition: aborts on overflow past `255`. -/
def u8add (a b : Nat) : Option Nat :=
  if a + b < 256 then some (a + b) else none

/-- Rust `u8` checked subtraction: aborts on underflow. -/
def u8sub (a b : Nat) : Option Nat :=
  if b ≤ a then some (a - b) else none

/-- The `Chip8` struct of `src/src/chip8.rs`: 4096 bytes of memory,
16 byte registers, index register, program counter, a 16-entry stack
with stack pointer, two timers, a 64×32 framebuffer, 16 key states and
the last fetched opcode. Arrays are functions; their Rust lengths are
supplied at each access. -/
structure Chip8 where
  memory : Nat → Nat
  registers : Nat → Nat
  index : Nat
  pc : Nat
  stack : Nat → Nat
  sp : Nat
  delay_timer : Nat
  sound_timer : Nat
  video : Nat → Nat
  keypad : Nat → Bool
  opcode : Nat

/-- `Chip8::cls`: set every framebuffer cell to 0. -/
def cls (s : Chip8) : Chip8 :=
  { s with video := fun _ => 0 }

/-- `Chip8::ret` of `src/src/chip8.rs`: if `sp > 0`, decrement `sp` and
set `pc` to `stack[sp]`; otherwise `panic!` (modelled as `none`). -/
def ret (s : Chip8) : Option Chip8 :=
  if s.sp > 0 then do
    let sp1 := s.sp - 1
    let v ← arrGet s.stack 16 sp1
    pure { s with sp := sp1, pc := v }
  else
    none

/-- `Chip8::emulate_cycle` of `src/src/chip8.rs`, translated arm by arm.
Fetch combines `memory[pc]` and `memory[pc+1]` big-endian (both reads
bounds-checked, `pc + 1` a checked `u16` addition); dispatch is on the
top nibble with sub-dispatch for families `0x0` and `0x8`; unknown
opcodes only log (state unchanged); families `0x9`–`0xF` are empty
stubs in the source. After the `match`, the source unconditionally
executes `self.pc += 2`. -/
def emulate_cycle (s0 : Chip8) : Option Chip8 := do
  let hi ← arrGet s0.memory 4096 s0.pc
  let p1 ← u16add s0.pc 1
  let lo ← arrGet s0.memory 4096 p1
  let op := (hi <<< 8) ||| lo
  let s : Chip8 := { s0 with opcode := op }
  let x := (op &&& 0x0F00) >>> 8
  let y := (op &&& 0x00F0) >>> 4
  let s1 ←
    if op &&& 0xF000 = 0x0000 then
      if op &&& 0x00FF = 0x00E0 then
        pure (cls s)
      else if op &&& 0x00FF = 0x00EE then
        ret s
      else
        pure s
    else if op &&& 0xF000 = 0x1000 then
      -- JMP addr
      pure { s with pc := op &&& 0x0FFF }
    else if op &&& 0xF000 = 0x2000 then
      -- CALL addr: panic!("Stack overflow") when sp >= stack.len()
      if 16 ≤ s.sp then
        none
      else do
        let r ← u16add s.pc 2
        let stk ← arrSet s.stack 16 s.sp r
        pure { s with stack := stk, sp := s.sp + 1, pc := op &&& 0x0FFF }
    else if op &&& 0xF000 = 0x3000 then do
      -- SE Vx, byte
      let vx ← arrGet s.registers 16 x
      if vx = (op &&& 0x00FF) then do
        let p ← u16add s.pc 2
        pure { s with pc := p }
      else
        pure s
    else if op &&& 0xF000 = 0x4000 then do
      -- SNE Vx, byte
      let vx ← arrGet s.registers 16 x
      if vx ≠ (op &&& 0x00FF) then do
        let p ← u16add s.pc 2
        pure { s with pc := p }
      else
        pure s
    else if op &&& 0xF000 = 0x5000 then do
      -- SE Vx, Vy
      let vx ← arrGet s.registers 16 x
      let vy ← arrGet s.registers 16 y
      if vx = vy then do
        let p ← u16add s.pc 2
        pure { s with pc := p }
      else
        pure s
    else if op &&& 0xF000 = 0x6000 then do
      -- LD Vx, byte
      let regs ← arrSet s.registers 16 x (op &&& 0x00FF)
      pure { s with registers := regs }
    else if op &&& 0xF000 = 0x7000 then do
      -- ADD Vx, byte (wrapping_add)
      let vx ← arrGet s.registers 16 x
      let regs ← arrSet s.registers 16 x ((vx + (op &&& 0x00FF)) % 256)
      pure { s with registers := regs }
    else if op &&& 0xF000 = 0x8000 then
      if op &&& 0x000F = 0x0000 then do
        -- LD Vx, Vy
        let vy ← arrGet s.registers 16 y
        let regs ← arrSet s.registers 16 x vy
        pure { s with registers := regs }
      else if op &&& 0x000F = 0x0001 then do
        -- OR Vx, Vy: the source evaluates `registers[vx] != registers[vy]`
        -- and discards the boolean; no register is written.
        let _ ← arrGet s.registers 16 x
        let _ ← arrGet s.registers 16 y
        pure s
      else if op &&& 0x000F = 0x0002 then do
        -- AND Vx, Vy
        let vx ← arrGet s.registers 16 x
        let vy ← arrGet s.registers 16 y
        let regs ← arrSet s.registers 16 x (vx &&& vy)
        pure { s with registers := regs }
      else if op &&& 0x000F = 0x0003 then do
        -- XOR Vx, Vy
        let vx ← arrGet s.registers 16 x
        let vy ← arrGet s.registers 16 y
        let regs ← arrSet s.registers 16 x (vx ^^^ vy)
        pure { s with registers := regs }
      else if op &&& 0x000F = 0x0004 then do
        -- ADD Vx, Vy: the source adds the two registers in u8 BEFORE
        -- casting to u16 (`(registers[vx] + registers[vy]) as u16`),
        -- so the sum is checked 8-bit arithmetic.
        let vx ← arrGet s.registers 16 x
        let vy ← arrGet s.registers 16 y
        let sum ← u8add vx vy
        let f := if 255 < sum then 1 else 0
        let regs1 ← arrSet s.registers 16 0xF f
        let vx2 ← arrGet regs1 16 x
        let vy2 ← arrGet regs1 16 y
        let _ := (vx2, vy2)
        let regs2 ← arrSet regs1 16 x (sum &&& 0xFF)
        pure { s with registers := regs2 }
      else if op &&& 0x000F = 0x0005 then do
        -- SUB Vx, Vy: flag is strict `>` in the source; the subtraction
        -- `registers[vx] -= registers[vy]` is checked u8 arithmetic.
        let vx ← arrGet s.registers 16 x
        let vy ← arrGet s.registers 16 y
        let f := if vy < vx then 1 else 0
        let regs1 ← arrSet s.registers 16 0xF f
        let a ← arrGet regs1 16 x
        let b ← arrGet regs1 16 y
        let d ← u8sub a b
        let regs2 ← arrSet regs1 16 x d
        pure { s with registers := regs2 }
      else if op &&& 0x000F = 0x0006 then do
        -- SHR Vx
        let vx ← arrGet s.registers 16 x
        let regs1 ← arrSet s.registers 16 0xF (vx &&& 0x1)
        let v ← arrGet regs1 16 x
        let regs2 ← arrSet regs1 16 x (v >>> 1)
        pure { s with registers := regs2 }
      else if op &&& 0x000F = 0x0007 then do
        -- SUBN Vx, Vy: flag is strict `>` in the source; the
        -- subtraction `registers[vy] - registers[vx]` is checked.
        let vx ← arrGet s.registers 16 x
        let vy ← arrGet s.registers 16 y
        let f := if vx < vy then 1 else 0
        let regs1 ← arrSet s.registers 16 0xF f
        let b ← arrGet regs1 16 y
        let a ← arrGet regs1 16 x
        let d ← u8sub b a
        let regs2 ← arrSet regs1 16 x d
        pure { s with registers := regs2 }
      else if op &&& 0x000F = 0x000E then do
        -- SHL Vx: Rust `<<= 1` on u8 discards the shifted-out bit.
        let vx ← arrGet s.registers 16 x
        let regs1 ← arrSet s.registers 16 0xF ((vx &&& 0x80) >>> 7)
        let v ← arrGet regs1 16 x
        let regs2 ← arrSet regs1 16 x ((v <<< 1) % 256)
        pure { s with registers := regs2 }
      else
        pure s
    else
      -- families 0x9, 0xA, 0xB, 0xC, 0xD are empty stubs; 0xE and 0xF
      -- sub-dispatch to empty stubs; the default arm only logs.
      pure s
  let pf ← u16add s1.pc 2
  pure { s1 with pc := pf }

/-- The byte-copy loop of `Chip8::load_rom` in `src/src/chip8.rs`:
for each buffer byte in order, write it at `START_ADDRESS + i` if that
address is below `memory.len()`, else `break`. The function then
returns `Ok(())` unconditionally (the only fallible part is file I/O,
external to the core). -/
def copy_rom : (Nat → Nat) → Nat → List Nat → (Nat → Nat)
  | mem, _, [] => mem
  | mem, addr, b :: rest =>
    if addr < 4096 then
      copy_rom (fun j => if j = addr then b else mem j) (addr + 1) rest
    else
      mem

/-- `Chip8::load_rom`'s effect on memory, given the bytes read from the
file: copy starting at `0x200`, silently truncating past the end of
memory. It is total: no length check and no error value exists. -/
def load_rom (mem : Nat → Nat) (buffer : List Nat) : Nat → Nat :=
  copy_rom mem 0x200 buffer

/-- The register index computed by `Chip8::op_8xye` (SHL) in
`src/src/modules/chip8.rs`: `(opcode & 0x0F00) >> 7` — shifted by 7,
not 8. -/
def op_8xye_vx (opcode : Nat) : Nat :=
  (opcode &&& 0x0F00) >>> 7

/-- `Chip8::op_8xye` of `src/src/modules/chip8.rs` acting on the
register file: read `registers[vx] & 0x80` (bounds-checked), write the
flag, then shift `registers[vx]` left by one. -/
def modules_op_8xye (registers : Nat → Nat) (opcode : Nat) : Option (Nat → Nat) := do
  let vx := op_8xye_vx opcode
  let v ← arrGet registers 16 vx
  let regs1 ← arrSet registers 16 0xF ((v &&& 0x80) >>> 7)
  let v2 ← arrGet regs1 16 vx
  arrSet regs1 16 vx ((v2 <<< 1) % 256)

/-- The second register index computed by `Chip8::op_9xy0` (SNE Vx,Vy)
in `src/src/modules/chip8.rs`: `(opcode & 0x0FF0) >> 4` — an 8-bit
field, not a 4-bit one. -/
def op_9xy0_vy (opcode : Nat) : Nat :=
  (opcode &&& 0x0FF0) >>> 4

/-! ## Concrete machine states used to evaluate the step function -/

/-- The all-zero array. -/
def zmem : Nat → Nat := fun _ => 0

/-- A machine state with the given memory, registers, `pc` and `sp`,
everything else zeroed — the state right after `Chip8::new()` and the
test preamble, glyph table ignored (no claim touches it). -/
def mk (mem regs : Nat → Nat) (pc sp : Nat) : Chip8 :=
  { memory := mem, registers := regs, index := 0, pc := pc,
    stack := zmem, sp := sp, delay_timer := 0, sound_timer := 0,
    video := zmem, keypad := fun _ => false, opcode := 0 }

/-- Memory for the CALL/RET scenario: `CALL 0x300` at `0x200`, and a
`RET` placed at `0x302`, where control actually lands under this
implementation (the post-`match` increment lands two bytes past the
call target). -/
def c1mem : Nat → Nat := fun a =>
  if a = 0x200 then 0x23 else if a = 0x303 then 0xEE else 0

/-- Memory holding `JP 0x300` (opcode `0x1300`) at `0x200`. -/
def c2mem : Nat → Nat := fun a =>
  if a = 0x200 then 0x13 else 0

/-- Memory holding `ADD V0, V1` (opcode `0x8014`) at `0x200`. -/
def c3mem : Nat → Nat := fun a =>
  if a = 0x200 then 0x80 else if a = 0x201 then 0x14 else 0

/-- Memory holding `SUB V0, V1` (opcode `0x8015`) at `0x200`. -/
def c4mem : Nat → Nat := fun a =>
  if a = 0x200 then 0x80 else if a = 0x201 then 0x15 else 0

/-- Memory holding `SUBN V0, V1` (opcode `0x8017`) at `0x200`. -/
def c5mem : Nat → Nat := fun a =>
  if a = 0x200 then 0x80 else if a = 0x201 then 0x17 else 0

/-- Memory holding `OR V0, V1` (opcode `0x8011`) at `0x200`. -/
def c6mem : Nat → Nat := fun a =>
  if a = 0x200 then 0x80 else if a = 0x201 then 0x11 else 0

/-- Memory holding `CALL 0x300` (opcode `0x2300`) at `0x200`. -/
def c7mem : Nat → Nat := fun a =>
  if a = 0x200 then 0x23 else 0

/-- Registers with `V0 = a`, `V1 = b`, the rest zero. -/
def regs2 (a b : Nat) : Nat → Nat := fun i =>
  if i = 0 then a else if i = 1 then b else 0

end Chip8V

namespace Chip8V

/-! ## Helper lemmas about the ROM copy loop -/

/-- `copy_rom` never writes below its starting address. -/
theorem copy_rom_lt (buffer : List Nat) (mem : Nat → Nat) (addr j : Nat)
    (h : j < addr) : copy_rom mem addr buffer j = mem j := by
  induction buffer generalizing mem addr with
  | nil => rfl
  | cons b rest ih =>
    unfold copy_rom
    by_cases h4 : addr < 4096
    · rw [if_pos h4, ih _ _ (Nat.lt_succ_of_lt h)]
      simp [Nat.ne_of_lt h]
    · rw [if_neg h4]

/-- The first buffer byte is written at the starting address whenever
that address is in bounds. -/
theorem copy_rom_head (rest : List Nat) (mem : Nat → Nat) (addr b : Nat)
    (h4 : addr < 4096) : copy_rom mem addr (b :: rest) addr = b := by
  unfold copy_rom
  rw [if_pos h4, copy_rom_lt _ _ _ _ (Nat.lt_succ_self addr)]
  simp

end Chip8V

namespace Chip8V

/-- Claim C1: the claimed CALL/RET round trip fails on this code. With
`CALL 0x300` at `0x200` and a `RET` at `0x302` (where control actually
lands, since the unconditional post-match `pc += 2` applies after CALL
too), two cycles end with `sp` restored to 0 but `pc = 0x204`, not the
claimed `0x202`: RET pops the saved `0x202` and the post-match
increment then adds 2 again. -/
theorem C1_call_ret_pc_not_restored :
    ((emulate_cycle (mk c1mem zmem 0x200 0)).bind emulate_cycle).map Chip8.pc
      = some 0x204 ∧
    ((emulate_cycle (mk c1mem zmem 0x200 0)).bind emulate_cycle).map Chip8.sp
      = some 0 ∧
    (0x204 : Nat) ≠ 0x202 := by
  refine ⟨by decide, by decide, by decide⟩

/-- Claim C2: `JP addr` does not leave `pc = nnn`. Executing opcode
`0x1300` (`JP 0x300`) from `pc = 0x200` ends with `pc = 0x302`, because
the unconditional `pc += 2` after the dispatch also applies to the jump. -/
theorem C2_jp_pc_gets_extra_increment :
    (emulate_cycle (mk c2mem zmem 0x200 0)).map Chip8.pc = some 0x302 ∧
    (0x302 : Nat) ≠ 0x300 := by
  refine ⟨by decide, by decide⟩

/-- Claim C3: `ADD Vx, Vy` does abort. With `V0 = 255`, `V1 = 1` and
opcode `0x8014`, the source's `registers[vx] + registers[vy]` is an
8-bit addition performed before the `as u16` cast, so it overflows and
the cycle aborts instead of setting `VF = 1` and `V0 = 0`. -/
theorem C3_add_vx_vy_aborts_on_carry :
    emulate_cycle (mk c3mem (regs2 255 1) 0x200 0) = none := by
  rfl

/-- Claim C4: the `SUB Vx, Vy` flag uses strict `>`, not `>=`. With
`V0 = V1 = 5` and opcode `0x8015`, the cycle completes with `VF = 0`,
where the claim requires `VF = 1` for `a ≥ b`. -/
theorem C4_sub_flag_zero_when_equal :
    (emulate_cycle (mk c4mem (regs2 5 5) 0x200 0)).map
      (fun t => t.registers 0xF) = some 0 ∧
    (0 : Nat) ≠ 1 := by
  refine ⟨by decide, by decide⟩

/-- Claim C5: the `SUBN Vx, Vy` flag uses strict `>`, not `>=`. With
`V0 = V1 = 7` and opcode `0x8017`, the cycle completes with `VF = 0`,
where the claim requires `VF = 1` for `b ≥ a`. -/
theorem C5_subn_flag_zero_when_equal :
    (emulate_cycle (mk c5mem (regs2 7 7) 0x200 0)).map
      (fun t => t.registers 0xF) = some 0 ∧
    (0 : Nat) ≠ 1 := by
  refine ⟨by decide, by decide⟩

/-- Claim C6: `OR Vx, Vy` is a no-op in this code (the source computes
the boolean `registers[vx] != registers[vy]` and discards it). With
`V0 = 0`, `V1 = 1` and opcode `0x8011`, `V0` is still `0` after the
cycle, where the claim requires the bitwise OR `0 ||| 1 = 1`. -/
theorem C6_or_writes_nothing :
    (emulate_cycle (mk c6mem (regs2 0 1) 0x200 0)).map
      (fun t => t.registers 0) = some 0 ∧
    (0 : Nat) ≠ (0 ||| 1 : Nat) := by
  refine ⟨by decide, by decide⟩

/-- Claim C7: the error conditions are not reported as typed results.
`CALL` with `sp = 16` hits `panic!("Stack overflow")` and `ret` with
`sp = 0` hits `panic!` as well — both abort the process (modelled as
`none`) instead of returning an error value. -/
theorem C7_overflow_and_underflow_panic :
    emulate_cycle (mk c7mem zmem 0x200 16) = none ∧
    ret (mk zmem zmem 0x200 0) = none := by
  refine ⟨by rfl, by rfl⟩

/-- Claim C8: `load_rom` has no size check. Loading a buffer of length
3585 (one past `4096 - 0x200`) does not fail and does not leave memory
unchanged: the copy loop writes the first 3584 bytes (address `0x200`
receives the first byte, here 7, over the prior 0) and silently drops
the rest, returning success. -/
theorem C8_load_rom_partial_write :
    (7 :: List.replicate 3584 7).length = 3585 ∧
    load_rom zmem (7 :: List.replicate 3584 7) 0x200 = 7 ∧
    zmem 0x200 = 0 := by
  refine ⟨?_, ?_, rfl⟩
  · rw [List.length_cons, List.length_replicate]
  · exact copy_rom_head _ _ _ _ (by norm_num)

/-- Claim C9: not every register index is 4-bit-derived. The SHL
handler of `src/src/modules/chip8.rs` computes
`vx = (opcode & 0x0F00) >> 7`, which for opcode `0x8F0E` is 30 — out of
bounds for the 16-element register file, so the handler's first
register read panics; likewise `op_9xy0` derives its second index from
an 8-bit field, reaching 255 for opcode `0x9FF0`. -/
theorem C9_modules_shl_index_out_of_bounds :
    op_8xye_vx 0x8F0E = 30 ∧
    ¬ op_8xye_vx 0x8F0E < 16 ∧
    modules_op_8xye zmem 0x8F0E = none ∧
    op_9xy0_vy 0x9FF0 = 255 ∧
    ¬ op_9xy0_vy 0x9FF0 < 16 := by
  refine ⟨by decide, by decide, by rfl, by decide, by decide⟩

/-- Claim C10: the fetch is only in bounds below the end of memory. For
every machine state with `pc ≥ 4095`, `emulate_cycle` aborts (reads
`memory[pc]` or `memory[pc + 1]` out of the 4096-byte range) instead of
returning a typed error. -/
theorem C10_fetch_aborts_past_memory (s : Chip8) (h : 4095 ≤ s.pc) :
    emulate_cycle s = none := by
  unfold emulate_cycle
  rcases Nat.lt_or_ge s.pc 4096 with h1 | h1
  · have hpc : s.pc = 4095 := by omega
    rw [hpc]
    simp [arrGet, u16add]
  · have hg : arrGet s.memory 4096 s.pc = none := by
      unfold arrGet
      rw [if_neg (by omega)]
    rw [hg]
    rfl

/-- Witness for C10 at the concrete state with `pc = 4095`. -/
theorem C10_fetch_aborts_witness :
    4095 ≤ (mk zmem zmem 4095 0).pc ∧
    emulate_cycle (mk zmem zmem 4095 0) = none :=
  ⟨by decide, C10_fetch_aborts_past_memory (mk zmem zmem 4095 0) (by decide)⟩

end Chip8V
